import Mathlib

/-!
Verification of the Devpost hackathon bulk fetcher
(`src/fetch_hackathons.py`).

The script is embedded shallowly: Python/JSON values become the inductive
type `PyVal`; Python dictionaries are association lists; fallible Python
expressions (attribute errors, key errors, type errors, division by zero)
return `Except String`; the network is an oracle parameter (per-attempt
results for one page, per-page fetch outcomes for the whole run).
-/

/-- A Python/JSON value as handled by the script: `None`, booleans,
integers, strings, lists and string-keyed dictionaries. -/
inductive PyVal where
  | none
  | bool (b : Bool)
  | int (n : Int)
  | str (s : String)
  | list (xs : List PyVal)
  | dict (kvs : List (String × PyVal))
  deriving Repr

/-- Python truthiness (`if x:`): `None`/`False`/`0`/`""` and empty
containers are falsy, everything else is truthy. -/
def truthy : PyVal → Bool
  | PyVal.none => false
  | PyVal.bool b => b
  | PyVal.int n => n != 0
  | PyVal.str s => s != ""
  | PyVal.list xs => !xs.isEmpty
  | PyVal.dict kvs => !kvs.isEmpty

/-- Python `d.get(k, default)`: only dictionaries have `.get`; a missing key
yields the default. -/
def pyGetD (h : PyVal) (k : String) (d : PyVal) : Except String PyVal :=
  match h with
  | PyVal.dict kvs => Except.ok ((kvs.lookup k).getD d)
  | _ => Except.error "AttributeError: object has no attribute get"

/-- Python `d.get(k)`: missing key yields `None`. -/
def pyGet (h : PyVal) (k : String) : Except String PyVal :=
  pyGetD h k PyVal.none

/-- Python subscription `v[k]` with a string key: `KeyError` on a
dictionary without the key, `TypeError` on non-dictionaries. -/
def pySubscr (h : PyVal) (k : String) : Except String PyVal :=
  match h with
  | PyVal.dict kvs =>
    match kvs.lookup k with
    | some v => Except.ok v
    | Option.none => Except.error "KeyError"
  | _ => Except.error "TypeError: value is not subscriptable by str"

/-- Python iteration `for x in v`: lists yield elements, strings yield
one-character strings, dictionaries yield their keys; other values raise
`TypeError`. -/
def pyIter : PyVal → Except String (List PyVal)
  | PyVal.list xs => Except.ok xs
  | PyVal.str s => Except.ok (s.toList.map fun c => PyVal.str (String.mk [c]))
  | PyVal.dict kvs => Except.ok (kvs.map fun kv => PyVal.str kv.1)
  | _ => Except.error "TypeError: value is not iterable"

/-- A value used where Python requires a `str` (join operand, `.replace`
receiver, `+` with a string); anything else raises. -/
def asStr : PyVal → Except String String
  | PyVal.str s => Except.ok s
  | _ => Except.error "TypeError: expected str"

/-- Python containment `k in v` for a string needle: key membership for
dictionaries, element equality for lists (a string equals only an equal
string), substring test for strings; other values raise `TypeError`. -/
def strContainsSub (pat : List Char) : List Char → Bool
  | [] => pat.isEmpty
  | c :: rest => pat.isPrefixOf (c :: rest) || strContainsSub pat rest

/-- See `strContainsSub`. -/
def pyContains (k : String) : PyVal → Except String Bool
  | PyVal.dict kvs => Except.ok (kvs.lookup k).isSome
  | PyVal.list xs =>
    Except.ok (xs.any fun v => match v with | PyVal.str s => s == k | _ => false)
  | PyVal.str s => Except.ok (strContainsSub k.toList s.toList)
  | _ => Except.error "TypeError: argument is not a container"

/-- Python `str.replace(pat, rep)` on character lists: replaces every
non-overlapping occurrence left to right (fuel is the list length, which
always suffices). -/
def pyReplaceAux (pat rep : List Char) : Nat → List Char → List Char
  | _, [] => []
  | 0, l => l
  | fuel+1, c :: rest =>
    if pat.isPrefixOf (c :: rest) then
      rep ++ pyReplaceAux pat rep fuel (rest.drop (pat.length - 1))
    else c :: pyReplaceAux pat rep fuel rest

/-- Python `s.replace(pat, rep)` for a non-empty pattern. -/
def pyStrReplace (s pat rep : String) : String :=
  String.mk (pyReplaceAux pat.toList rep.toList s.toList.length s.toList)

/-- Python `sep.join(strs)`. -/
def pyJoin (sep : String) : List String → String
  | [] => ""
  | [s] => s
  | s :: rest => s ++ sep ++ pyJoin sep rest

/-- The source's per-element loops (`for x in xs: out.append(f(x))` and
list comprehensions): first failure aborts with that error. -/
def mapME {α β ε : Type} (f : α → Except ε β) : List α → Except ε (List β)
  | [] => Except.ok []
  | a :: l => do
    let b ← f a
    let bs ← mapME f l
    Except.ok (b :: bs)

@[simp] theorem except_bind_ok {α β ε : Type} (a : α) (f : α → Except ε β) :
    (Except.ok a >>= f) = f a := rfl

@[simp] theorem except_bind_error {α β ε : Type} (e : ε) (f : α → Except ε β) :
    ((Except.error e : Except ε α) >>= f) = Except.error e := rfl

/-! ## `flatten_hackathon` (lines 54-78) -/

/-- Line 56: `', '.join([theme['name'] for theme in hackathon.get('themes', [])])`. -/
def themesJoined (h : PyVal) : Except String String := do
  let themesRaw ← pyGetD h "themes" (PyVal.list [])
  let items ← pyIter themesRaw
  let names ← mapME (fun t => pySubscr t "name") items
  let strs ← mapME asStr names
  Except.ok (pyJoin ", " strs)

/-- Line 63: `hackathon.get('displayed_location', {}).get('location')`. -/
def locationField (h : PyVal) : Except String PyVal := do
  let dl ← pyGetD h "displayed_location" (PyVal.dict [])
  pyGet dl "location"

/-- Line 67: `hackathon.get('prize_amount', '').replace('<span data-currency-value>', '').replace('</span>', '')`. -/
def prizeAmountField (h : PyVal) : Except String PyVal := do
  let pa ← pyGetD h "prize_amount" (PyVal.str "")
  let s ← asStr pa
  Except.ok (PyVal.str (pyStrReplace (pyStrReplace s "<span data-currency-value>" "") "</span>" ""))

/-- Lines 68-69: `hackathon.get('prizes_counts', {}).get(k, 0)`. -/
def prizesCountField (h : PyVal) (k : String) : Except String PyVal := do
  let pc ← pyGetD h "prizes_counts" (PyVal.dict [])
  pyGetD pc k (PyVal.int 0)

/-- Line 76: `'https:' + hackathon.get('thumbnail_url', '') if hackathon.get('thumbnail_url') else ''`. -/
def thumbnailField (h : PyVal) : Except String PyVal := do
  let cond ← pyGet h "thumbnail_url"
  if truthy cond then do
    let tv ← pyGetD h "thumbnail_url" (PyVal.str "")
    let s ← asStr tv
    Except.ok (PyVal.str ("https:" ++ s))
  else
    Except.ok (PyVal.str "")

/-- `flatten_hackathon` (lines 54-78): projects one raw hackathon record to
the fixed 19-field flat record; field expressions are evaluated in source
order and any Python exception propagates as `Except.error`. -/
def flatten_hackathon (h : PyVal) : Except String PyVal := do
  let themes ← themesJoined h
  let idV ← pyGet h "id"
  let titleV ← pyGet h "title"
  let urlV ← pyGet h "url"
  let orgV ← pyGet h "organization_name"
  let locV ← locationField h
  let openV ← pyGet h "open_state"
  let spdV ← pyGet h "submission_period_dates"
  let tltsV ← pyGet h "time_left_to_submission"
  let paV ← prizeAmountField h
  let cashV ← prizesCountField h "cash"
  let otherV ← prizesCountField h "other"
  let regV ← pyGet h "registrations_count"
  let featV ← pyGet h "featured"
  let waV ← pyGet h "winners_announced"
  let invV ← pyGet h "invite_only"
  let mbdV ← pyGet h "managed_by_devpost_badge"
  let thumbV ← thumbnailField h
  let sguV ← pyGet h "submission_gallery_url"
  Except.ok (PyVal.dict
    [("id", idV), ("title", titleV), ("url", urlV),
     ("organization_name", orgV), ("location", locV), ("open_state", openV),
     ("submission_period_dates", spdV), ("time_left_to_submission", tltsV),
     ("prize_amount", paV), ("cash_prizes_count", cashV),
     ("other_prizes_count", otherV), ("registrations_count", regV),
     ("themes", PyVal.str themes), ("featured", featV),
     ("winners_announced", waV), ("invite_only", invV),
     ("managed_by_devpost", mbdV), ("thumbnail_url", thumbV),
     ("submission_gallery_url", sguV)])

/-- The 19 output keys of `flatten_hackathon`, in source order. -/
def flatKeys : List String :=
  ["id", "title", "url", "organization_name", "location", "open_state",
   "submission_period_dates", "time_left_to_submission", "prize_amount",
   "cash_prizes_count", "other_prizes_count", "registrations_count",
   "themes", "featured", "winners_announced", "invite_only",
   "managed_by_devpost", "thumbnail_url", "submission_gallery_url"]

/-! ## `fetch_page_with_retry` (lines 11-52) -/

/-- The observable result of one HTTP attempt for a page:
`success` is status 200 with a decodable JSON body; `http404` the 404
branch; `raisedStatus` any status that makes `raise_for_status()` raise
(caught by the generic `except` branch); `timeout` an `asyncio.TimeoutError`;
`exc` any other exception (including JSON decode failure); `noRaiseStatus` a
non-200 status below 400, for which `raise_for_status()` returns normally
and the loop silently proceeds to the next attempt. -/
inductive AttemptResult where
  | success (data : PyVal)
  | http404
  | raisedStatus
  | timeout
  | exc
  | noRaiseStatus

/-- The `for attempt in range(max_retries)` loop of `fetch_page_with_retry`
(lines 21-50): on success returns the decoded body; on a retryable failure
retries while `attempt < max_retries - 1`, else returns `None`; on a
non-raising non-200 status just continues; falling off the loop returns
`None` (line 52).  Returns the outcome together with the number of attempts
made; `fuel` starts at `maxRetries` so the loop body runs at most
`maxRetries` times, exactly as `range(max_retries)` does. -/
def fetchPageLoop (oracle : Nat → AttemptResult) (maxRetries : Nat) :
    Nat → Nat → Option PyVal × Nat
  | 0, attempt => (Option.none, attempt)
  | fuel+1, attempt =>
    match oracle attempt with
    | AttemptResult.success d => (some d, attempt + 1)
    | AttemptResult.noRaiseStatus => fetchPageLoop oracle maxRetries fuel (attempt + 1)
    | _ =>
      if attempt < maxRetries - 1 then fetchPageLoop oracle maxRetries fuel (attempt + 1)
      else (Option.none, attempt + 1)

/-- `fetch_page_with_retry` for one page, given the oracle of its
per-attempt network results; the default `max_retries` in the source is 3. -/
def fetch_page_with_retry (oracle : Nat → AttemptResult) (maxRetries : Nat) :
    Option PyVal × Nat :=
  fetchPageLoop oracle maxRetries maxRetries 0

/-! ## `fetch_all_hackathons` (lines 80-122) -/

/-- Body of the per-page iteration (lines 106-116): `data = await coro`,
then `if data and 'hackathons' in data:` flatten every record of
`data['hackathons']`, `else` record the page as failed (`Except.ok
Option.none`). -/
def pageStep (data? : Option PyVal) : Except String (Option (List PyVal)) :=
  match data? with
  | Option.none => Except.ok Option.none
  | some data =>
    if truthy data then do
      let c ← pyContains "hackathons" data
      if c then do
        let hs ← pySubscr data "hackathons"
        let items ← pyIter hs
        let flats ← mapME flatten_hackathon items
        Except.ok (some flats)
      else Except.ok Option.none
    else Except.ok Option.none

/-- The awaiting loop of lines 105-116 over the remaining page numbers,
accumulating flattened records and the `failed_pages` list in iteration
order. -/
def fetchLoop (outcome : Nat → Option PyVal) :
    List Nat → List PyVal → List Nat → Except String (List PyVal × List Nat)
  | [], acc, failed => Except.ok (acc, failed)
  | p :: ps, acc, failed =>
    match pageStep (outcome p) with
    | Except.error e => Except.error e
    | Except.ok Option.none => fetchLoop outcome ps acc (failed ++ [p])
    | Except.ok (some flats) => fetchLoop outcome ps (acc ++ flats) failed

/-- `fetch_all_hackathons` (lines 80-122): flattens the page-1 records
already in hand (lines 85-86), then processes pages `2..total_pages`
(`range(2, total_pages + 1)`, embedded as `List.range' 2 (total_pages - 1)`)
in ascending page order, `outcome p` being the value `fetch_page_with_retry`
returned for page `p`.  Returns the ordered record collection and the
`failed_pages` list. -/
def fetch_all_hackathons (total_pages : Nat) (first_page_hackathons : List PyVal)
    (outcome : Nat → Option PyVal) : Except String (List PyVal × List Nat) := do
  let firstFlat ← mapME flatten_hackathon first_page_hackathons
  fetchLoop outcome (List.range' 2 (total_pages - 1)) firstFlat []

/-- A successful page payload as served by the API: a JSON object whose
`hackathons` member is the page's record list. -/
def encodePage (rs : List PyVal) : PyVal :=
  PyVal.dict [("hackathons", PyVal.list rs)]

/-- Per-page outcomes in the sense of the spec (success with a record list,
or absent), injected into the decoded-payload view `fetch_all_hackathons`
consumes. -/
def encodePages (o : Nat → Option (List PyVal)) : Nat → Option PyVal :=
  fun p => (o p).map encodePage

/-! ## `main` (lines 124-171) -/

/-- Line 146: `total_pages = (total_count + per_page - 1) // per_page`;
Python `//` on ints is floor division, `Int.fdiv`. -/
def total_pages_formula (total_count per_page : Int) : Int :=
  (total_count + per_page - 1).fdiv per_page

/-- A value used by `main` as an integer operand; Python also lets `bool`
take part in int arithmetic. -/
def asIntVal : PyVal → Except String Int
  | PyVal.int n => Except.ok n
  | PyVal.bool b => Except.ok (if b then 1 else 0)
  | _ => Except.error "TypeError: unsupported operand type"

/-- Lines 144-153 of `main` after a truthy discovery response: read
`meta.total_count` and `meta.per_page`, compute `total_pages`, and run
`fetch_all_hackathons` on `first_page['hackathons']`.  Any Python
exception (KeyError, TypeError, ZeroDivisionError, a flattening error)
propagates. -/
def mainFetch (first_page : PyVal) (outcome : Nat → Option PyVal) :
    Except String (List PyVal × List Nat) := do
  let meta ← pySubscr first_page "meta"
  let tcV ← pySubscr meta "total_count"
  let ppV ← pySubscr meta "per_page"
  let tc ← asIntVal tcV
  let pp ← asIntVal ppV
  if pp = 0 then Except.error "ZeroDivisionError" else do
    let tp := total_pages_formula tc pp
    let firstRecsV ← pySubscr first_page "hackathons"
    let firstRecs ← pyIter firstRecsV
    fetch_all_hackathons tp.toNat firstRecs outcome

/-- `main` (lines 124-171), observed as (process exit code, rows written to
the CSV file or `Option.none` when no file is written).  `discovery` is the
decoded page-1 response, `Option.none` when the discovery request or its
JSON decoding raised (an uncaught exception exits with code 1); a falsy
response hits `sys.exit(1)` (line 142); an uncaught exception later also
exits 1 with no file; otherwise the rows are written only under
`if all_hackathons:` (line 161). -/
def main_model (discovery : Option PyVal) (outcome : Nat → Option PyVal) :
    Nat × Option (List PyVal) :=
  match discovery with
  | Option.none => (1, Option.none)
  | some fp =>
    if truthy fp then
      match mainFetch fp outcome with
      | Except.error _ => (1, Option.none)
      | Except.ok (recs, _) =>
        if recs.isEmpty then (0, Option.none) else (0, some recs)
    else (1, Option.none)

/-! ## Scheduling model for the "concurrent" fetch (lines 92-106) -/

/-- Start and completion of the HTTP work for one page. -/
inductive FetchEvent where
  | start (p : Nat)
  | finish (p : Nat)

/-- Modelled from the spec: the asyncio execution of lines 94-106 of the
source, which the spec is missing a semantics for.  The source calls
`fetch_page_with_retry(...)` but stores the resulting bare coroutine
objects in `tasks` without ever passing them to `asyncio.create_task` or
`asyncio.gather`; a bare coroutine only begins executing when awaited, and
the loop at line 105 awaits them one at a time, so each page's request
starts and finishes entirely within its own `await` and the event trace is
page 2's work, then page 3's, and so on. -/
def fetchEventTrace (total_pages : Nat) : List FetchEvent :=
  (List.range' 2 (total_pages - 1)).flatMap fun p =>
    [FetchEvent.start p, FetchEvent.finish p]

/-- Running count of in-flight page requests after each event, starting
from `c` requests in flight. -/
def inFlightCounts : Nat → List FetchEvent → List Nat
  | c, [] => [c]
  | c, FetchEvent.start _ :: es => (c + 1) :: inFlightCounts (c + 1) es
  | c, FetchEvent.finish _ :: es => (c - 1) :: inFlightCounts (c - 1) es

/-! ## Shared concrete values -/

/-- The flat record `flatten_hackathon` produces for a raw record carrying
no fields beyond a thumbnail value, parameterized by that thumbnail. -/
def flatBase (thumb : PyVal) : PyVal :=
  PyVal.dict
    [("id", PyVal.none), ("title", PyVal.none), ("url", PyVal.none),
     ("organization_name", PyVal.none), ("location", PyVal.none),
     ("open_state", PyVal.none), ("submission_period_dates", PyVal.none),
     ("time_left_to_submission", PyVal.none), ("prize_amount", PyVal.str ""),
     ("cash_prizes_count", PyVal.int 0), ("other_prizes_count", PyVal.int 0),
     ("registrations_count", PyVal.none), ("themes", PyVal.str ""),
     ("featured", PyVal.none), ("winners_announced", PyVal.none),
     ("invite_only", PyVal.none), ("managed_by_devpost", PyVal.none),
     ("thumbnail_url", thumb), ("submission_gallery_url", PyVal.none)]

/-- `flatten_hackathon` of the empty raw record. -/
def flatEmpty : PyVal := flatBase (PyVal.str "")

example : flatten_hackathon (PyVal.dict []) = Except.ok flatEmpty := rfl

example : flatten_hackathon (PyVal.dict [("thumbnail_url", PyVal.str "//i")]) =
    Except.ok (flatBase (PyVal.str "https://i")) := rfl

example : flatten_hackathon (flatBase (PyVal.str "https://i")) =
    Except.ok (flatBase (PyVal.str "https:https://i")) := rfl

example : flatten_hackathon
    (PyVal.dict [("themes", PyVal.list [PyVal.dict [("name", PyVal.str "AI")],
      PyVal.dict [("name", PyVal.str "Web")]])]) =
    Except.ok (PyVal.dict
    [("id", PyVal.none), ("title", PyVal.none), ("url", PyVal.none),
     ("organization_name", PyVal.none), ("location", PyVal.none),
     ("open_state", PyVal.none), ("submission_period_dates", PyVal.none),
     ("time_left_to_submission", PyVal.none), ("prize_amount", PyVal.str ""),
     ("cash_prizes_count", PyVal.int 0), ("other_prizes_count", PyVal.int 0),
     ("registrations_count", PyVal.none), ("themes", PyVal.str "AI, Web"),
     ("featured", PyVal.none), ("winners_announced", PyVal.none),
     ("invite_only", PyVal.none), ("managed_by_devpost", PyVal.none),
     ("thumbnail_url", PyVal.str ""), ("submission_gallery_url", PyVal.none)]) := rfl

example : fetch_page_with_retry (fun _ => AttemptResult.http404) 3 = (Option.none, 3) := rfl

example : fetch_all_hackathons 3 [] (encodePages fun p => if p = 2 then some [] else Option.none) =
    Except.ok ([], [3]) := rfl

/-! ## General lemmas -/

theorem mapME_ok {α β : Type} (f : α → Except String β) (g : α → β) :
    ∀ l : List α, (∀ a ∈ l, f a = Except.ok (g a)) →
      mapME f l = Except.ok (l.map g)
  | [], _ => rfl
  | a :: l, h => by
    have ha := h a (by simp)
    have hl := mapME_ok f g l (fun x hx => h x (by simp [hx]))
    simp [mapME, ha, hl]

theorem pageStep_none : pageStep Option.none = Except.ok Option.none := rfl

theorem pageStep_encode (rs : List PyVal) (F : PyVal → PyVal)
    (h : ∀ r ∈ rs, flatten_hackathon r = Except.ok (F r)) :
    pageStep (some (encodePage rs)) = Except.ok (some (rs.map F)) := by
  have hm := mapME_ok flatten_hackathon F rs h
  simp [pageStep, encodePage, truthy, pyContains, pySubscr, pyIter, List.lookup, hm]

theorem fetchLoop_spec (outcome : Nat → Option PyVal) (G : Nat → Option (List PyVal)) :
    ∀ (ps : List Nat) (acc : List PyVal) (failed : List Nat),
      (∀ p ∈ ps, pageStep (outcome p) = Except.ok (G p)) →
      fetchLoop outcome ps acc failed =
        Except.ok (acc ++ ps.flatMap (fun p => (G p).getD []),
                   failed ++ ps.filter (fun p => (G p).isNone))
  | [], acc, failed, _ => by simp [fetchLoop]
  | p :: ps, acc, failed, h => by
    have hp := h p (List.mem_cons_self p ps)
    have hrest : ∀ q ∈ ps, pageStep (outcome q) = Except.ok (G q) :=
      fun q hq => h q (List.mem_cons_of_mem p hq)
    cases hG : G p with
    | none =>
      rw [hG] at hp
      have ih := fetchLoop_spec outcome G ps acc (failed ++ [p]) hrest
      simp [fetchLoop, hp, ih, hG]
    | some fs =>
      rw [hG] at hp
      have ih := fetchLoop_spec outcome G ps (acc ++ fs) failed hrest
      simp [fetchLoop, hp, ih, hG]

theorem fetch_all_spec (total_pages : Nat) (first : List PyVal)
    (o : Nat → Option (List PyVal)) (F : PyVal → PyVal)
    (hfirst : ∀ r ∈ first, flatten_hackathon r = Except.ok (F r))
    (hpages : ∀ p ∈ List.range' 2 (total_pages - 1), ∀ rs, o p = some rs →
      ∀ r ∈ rs, flatten_hackathon r = Except.ok (F r)) :
    fetch_all_hackathons total_pages first (encodePages o) =
      Except.ok (first.map F ++
          (List.range' 2 (total_pages - 1)).flatMap (fun p => ((o p).getD []).map F),
        (List.range' 2 (total_pages - 1)).filter (fun p => (o p).isNone)) := by
  have hm := mapME_ok flatten_hackathon F first hfirst
  have hsteps : ∀ p ∈ List.range' 2 (total_pages - 1),
      pageStep (encodePages o p) = Except.ok ((o p).map (List.map F)) := by
    intro p hp
    cases hop : o p with
    | none => simp [encodePages, hop, pageStep_none]
    | some rs =>
      simp only [encodePages, hop, Option.map_some]
      exact pageStep_encode rs F (hpages p hp rs hop)
  have hloop := fetchLoop_spec (encodePages o) (fun p => (o p).map (List.map F))
    (List.range' 2 (total_pages - 1)) (first.map F) [] hsteps
  rw [fetch_all_hackathons, hm, except_bind_ok, hloop]
  have h1 : ∀ p : Nat, ((o p).map (List.map F)).getD [] = ((o p).getD []).map F := by
    intro p; cases o p <;> rfl
  have h2 : ∀ p : Nat, ((o p).map (List.map F)).isNone = (o p).isNone := by
    intro p; cases o p <;> rfl
  simp only [h1, h2, List.nil_append]

/-! ## Flattening lemmas -/

/-- A raw record whose optional fields, when present, carry the types the
Devpost API serves (any subset of fields may be missing; fields other than
the five below are consumed verbatim and may hold any value). -/
def WTRaw (kvs : List (String × PyVal)) : Prop :=
  (∀ v, kvs.lookup "themes" = some v → ∃ ts, v = PyVal.list ts ∧
    ∀ t ∈ ts, ∃ tkvs s, t = PyVal.dict tkvs ∧
      tkvs.lookup "name" = some (PyVal.str s)) ∧
  (∀ v, kvs.lookup "prize_amount" = some v → ∃ s, v = PyVal.str s) ∧
  (∀ v, kvs.lookup "thumbnail_url" = some v → ∃ s, v = PyVal.str s) ∧
  (∀ v, kvs.lookup "displayed_location" = some v → ∃ d, v = PyVal.dict d) ∧
  (∀ v, kvs.lookup "prizes_counts" = some v → ∃ d, v = PyVal.dict d)

theorem themes_names_ok (ts : List PyVal)
    (h : ∀ t ∈ ts, ∃ tkvs s, t = PyVal.dict tkvs ∧
      tkvs.lookup "name" = some (PyVal.str s)) :
    ∃ strs : List String,
      mapME (fun t => pySubscr t "name") ts = Except.ok (strs.map PyVal.str) ∧
      mapME asStr (strs.map PyVal.str) = Except.ok strs := by
  induction ts with
  | nil => exact ⟨[], rfl, rfl⟩
  | cons t ts ih =>
    obtain ⟨tkvs, s, rfl, hname⟩ := h _ (List.mem_cons_self t ts)
    obtain ⟨strs, h1, h2⟩ := ih (fun x hx => h x (List.mem_cons_of_mem _ hx))
    refine ⟨s :: strs, ?_, ?_⟩
    · have hhead : pySubscr (PyVal.dict tkvs) "name" = Except.ok (PyVal.str s) := by
        simp [pySubscr, hname]
      simp [mapME, hhead, h1]
    · simp [mapME, asStr, h2]

theorem themesJoined_ok (kvs : List (String × PyVal))
    (h : ∀ v, kvs.lookup "themes" = some v → ∃ ts, v = PyVal.list ts ∧
      ∀ t ∈ ts, ∃ tkvs s, t = PyVal.dict tkvs ∧
        tkvs.lookup "name" = some (PyVal.str s)) :
    ∃ s, themesJoined (PyVal.dict kvs) = Except.ok s ∧
      (kvs.lookup "themes" = Option.none → s = "") := by
  cases hl : kvs.lookup "themes" with
  | none =>
    refine ⟨"", ?_, fun _ => rfl⟩
    simp [themesJoined, pyGetD, hl, pyIter, mapME, pyJoin]
  | some v =>
    obtain ⟨ts, rfl, hts⟩ := h v hl
    obtain ⟨strs, h1, h2⟩ := themes_names_ok ts hts
    refine ⟨pyJoin ", " strs, ?_, by simp [hl]⟩
    simp [themesJoined, pyGetD, hl, pyIter, h1, h2]

theorem locationField_ok (kvs : List (String × PyVal))
    (h : ∀ v, kvs.lookup "displayed_location" = some v → ∃ d, v = PyVal.dict d) :
    ∃ v, locationField (PyVal.dict kvs) = Except.ok v ∧
      (kvs.lookup "displayed_location" = Option.none → v = PyVal.none) := by
  cases hl : kvs.lookup "displayed_location" with
  | none =>
    refine ⟨PyVal.none, ?_, fun _ => rfl⟩
    simp [locationField, pyGetD, hl, pyGet]
  | some v =>
    obtain ⟨d, rfl⟩ := h v hl
    refine ⟨(d.lookup "location").getD PyVal.none, ?_, by simp [hl]⟩
    simp [locationField, pyGetD, hl, pyGet]

theorem prizeAmountField_ok (kvs : List (String × PyVal))
    (h : ∀ v, kvs.lookup "prize_amount" = some v → ∃ s, v = PyVal.str s) :
    ∃ v, prizeAmountField (PyVal.dict kvs) = Except.ok v ∧
      (kvs.lookup "prize_amount" = Option.none → v = PyVal.str "") := by
  cases hl : kvs.lookup "prize_amount" with
  | none =>
    refine ⟨PyVal.str "", ?_, fun _ => rfl⟩
    simp [prizeAmountField, pyGetD, hl, asStr]
    rfl
  | some v =>
    obtain ⟨s, rfl⟩ := h v hl
    refine ⟨PyVal.str (pyStrReplace (pyStrReplace s "<span data-currency-value>" "") "</span>" ""), ?_, by simp [hl]⟩
    simp [prizeAmountField, pyGetD, hl, asStr]

theorem prizesCountField_ok (kvs : List (String × PyVal)) (k : String)
    (h : ∀ v, kvs.lookup "prizes_counts" = some v → ∃ d, v = PyVal.dict d) :
    ∃ v, prizesCountField (PyVal.dict kvs) k = Except.ok v ∧
      (kvs.lookup "prizes_counts" = Option.none → v = PyVal.int 0) := by
  cases hl : kvs.lookup "prizes_counts" with
  | none =>
    refine ⟨PyVal.int 0, ?_, fun _ => rfl⟩
    simp [prizesCountField, pyGetD, hl]
  | some v =>
    obtain ⟨d, rfl⟩ := h v hl
    refine ⟨(d.lookup k).getD (PyVal.int 0), ?_, by simp [hl]⟩
    simp [prizesCountField, pyGetD, hl]

theorem thumbnailField_ok (kvs : List (String × PyVal))
    (h : ∀ v, kvs.lookup "thumbnail_url" = some v → ∃ s, v = PyVal.str s) :
    ∃ v, thumbnailField (PyVal.dict kvs) = Except.ok v ∧
      (kvs.lookup "thumbnail_url" = Option.none → v = PyVal.str "") ∧
      (kvs.lookup "thumbnail_url" = some (PyVal.str "") → v = PyVal.str "") ∧
      (∀ s, s ≠ "" → kvs.lookup "thumbnail_url" = some (PyVal.str s) →
        v = PyVal.str ("https:" ++ s)) := by
  cases hl : kvs.lookup "thumbnail_url" with
  | none =>
    refine ⟨PyVal.str "", ?_, fun _ => rfl, by simp [hl], by simp [hl]⟩
    simp [thumbnailField, pyGet, pyGetD, hl, truthy]
  | some v =>
    obtain ⟨s, rfl⟩ := h v hl
    by_cases hs : s = ""
    · subst hs
      refine ⟨PyVal.str "", ?_, by simp [hl], fun _ => rfl, ?_⟩
      · simp [thumbnailField, pyGet, pyGetD, hl, truthy]
      · intro t ht hteq
        simp at hteq
        exact absurd hteq.symm ht
    · refine ⟨PyVal.str ("https:" ++ s), ?_, by simp [hl], ?_, ?_⟩
      · simp [thumbnailField, pyGet, pyGetD, hl, truthy, asStr, hs]
      · intro hteq
        simp at hteq
        exact absurd hteq hs
      · intro t ht hteq
        simp at hteq
        rw [hteq]

theorem flatten_spec (kvs : List (String × PyVal)) (hwt : WTRaw kvs) :
    ∃ (th : String) (locV paV cashV otherV thumbV : PyVal),
      flatten_hackathon (PyVal.dict kvs) = Except.ok (PyVal.dict
        [("id", (kvs.lookup "id").getD PyVal.none),
         ("title", (kvs.lookup "title").getD PyVal.none),
         ("url", (kvs.lookup "url").getD PyVal.none),
         ("organization_name", (kvs.lookup "organization_name").getD PyVal.none),
         ("location", locV),
         ("open_state", (kvs.lookup "open_state").getD PyVal.none),
         ("submission_period_dates",
           (kvs.lookup "submission_period_dates").getD PyVal.none),
         ("time_left_to_submission",
           (kvs.lookup "time_left_to_submission").getD PyVal.none),
         ("prize_amount", paV),
         ("cash_prizes_count", cashV),
         ("other_prizes_count", otherV),
         ("registrations_count",
           (kvs.lookup "registrations_count").getD PyVal.none),
         ("themes", PyVal.str th),
         ("featured", (kvs.lookup "featured").getD PyVal.none),
         ("winners_announced", (kvs.lookup "winners_announced").getD PyVal.none),
         ("invite_only", (kvs.lookup "invite_only").getD PyVal.none),
         ("managed_by_devpost",
           (kvs.lookup "managed_by_devpost_badge").getD PyVal.none),
         ("thumbnail_url", thumbV),
         ("submission_gallery_url",
           (kvs.lookup "submission_gallery_url").getD PyVal.none)]) ∧
      (kvs.lookup "themes" = Option.none → th = "") ∧
      (kvs.lookup "displayed_location" = Option.none → locV = PyVal.none) ∧
      (kvs.lookup "prize_amount" = Option.none → paV = PyVal.str "") ∧
      (kvs.lookup "prizes_counts" = Option.none →
        cashV = PyVal.int 0 ∧ otherV = PyVal.int 0) ∧
      (kvs.lookup "thumbnail_url" = Option.none → thumbV = PyVal.str "") ∧
      (kvs.lookup "thumbnail_url" = some (PyVal.str "") → thumbV = PyVal.str "") ∧
      (∀ s, s ≠ "" → kvs.lookup "thumbnail_url" = some (PyVal.str s) →
        thumbV = PyVal.str ("https:" ++ s)) := by
  obtain ⟨h1, h2, h3, h4, h5⟩ := hwt
  obtain ⟨th, hth, hthd⟩ := themesJoined_ok kvs h1
  obtain ⟨locV, hloc, hlocd⟩ := locationField_ok kvs h4
  obtain ⟨paV, hpa, hpad⟩ := prizeAmountField_ok kvs h2
  obtain ⟨cashV, hcash, hcashd⟩ := prizesCountField_ok kvs "cash" h5
  obtain ⟨otherV, hother, hotherd⟩ := prizesCountField_ok kvs "other" h5
  obtain ⟨thumbV, hthumb, hthd1, hthd2, hthd3⟩ := thumbnailField_ok kvs h3
  refine ⟨th, locV, paV, cashV, otherV, thumbV, ?_, hthd, hlocd, hpad,
    fun hz => ⟨hcashd hz, hotherd hz⟩, hthd1, hthd2, hthd3⟩
  simp [flatten_hackathon, hth, hloc, hpa, hcash, hother, hthumb, pyGet, pyGetD]

theorem fetchPageLoop_fail (oracle : Nat → AttemptResult) (mr : Nat)
    (hfail : ∀ n d, oracle n ≠ AttemptResult.success d) :
    ∀ fuel attempt, attempt + fuel = mr →
      fetchPageLoop oracle mr fuel attempt = (Option.none, mr) := by
  intro fuel
  induction fuel with
  | zero =>
    intro attempt h
    simp [fetchPageLoop]
    omega
  | succ fuel ih =>
    intro attempt h
    cases h2 : oracle attempt with
    | success d => exact absurd h2 (hfail attempt d)
    | noRaiseStatus =>
      simp [fetchPageLoop, h2]
      exact ih (attempt + 1) (by omega)
    | http404 =>
      by_cases hlt : attempt < mr - 1
      · simp [fetchPageLoop, h2, hlt]
        exact ih (attempt + 1) (by omega)
      · simp [fetchPageLoop, h2, hlt]
        omega
    | raisedStatus =>
      by_cases hlt : attempt < mr - 1
      · simp [fetchPageLoop, h2, hlt]
        exact ih (attempt + 1) (by omega)
      · simp [fetchPageLoop, h2, hlt]
        omega
    | timeout =>
      by_cases hlt : attempt < mr - 1
      · simp [fetchPageLoop, h2, hlt]
        exact ih (attempt + 1) (by omega)
      · simp [fetchPageLoop, h2, hlt]
        omega
    | exc =>
      by_cases hlt : attempt < mr - 1
      · simp [fetchPageLoop, h2, hlt]
        exact ih (attempt + 1) (by omega)
      · simp [fetchPageLoop, h2, hlt]
        omega

theorem inFlight_seq_le_one : ∀ ps : List Nat,
    ∀ n ∈ inFlightCounts 0
      (ps.flatMap fun p => [FetchEvent.start p, FetchEvent.finish p]), n ≤ 1
  | [] => by
    intro n hn
    simp [inFlightCounts] at hn
    omega
  | p :: ps => by
    intro n hn
    have hstep : inFlightCounts 0
        ((p :: ps).flatMap fun q => [FetchEvent.start q, FetchEvent.finish q]) =
        1 :: 0 :: inFlightCounts 0
          (ps.flatMap fun q => [FetchEvent.start q, FetchEvent.finish q]) := rfl
    rw [hstep] at hn
    rcases List.mem_cons.mp hn with h1 | h1
    · omega
    rcases List.mem_cons.mp h1 with h2 | h2
    · omega
    · exact inFlight_seq_le_one ps n h2

/-- C9: the spec claims pages 2..totalPages are fetched concurrently with up
to 10 overlapping in-flight requests; in the code the coroutines are never
scheduled as tasks, so they run strictly one at a time — the in-flight count
never exceeds 1 at any point of the trace, and for totalPages = 3 the trace
is page 2's request completing entirely before page 3's begins. -/
theorem fetch_requests_sequential :
    (∀ total_pages : Nat,
      ∀ n ∈ inFlightCounts 0 (fetchEventTrace total_pages), n ≤ 1) ∧
    fetchEventTrace 3 = [FetchEvent.start 2, FetchEvent.finish 2,
      FetchEvent.start 3, FetchEvent.finish 3] := by
  constructor
  · intro total_pages n hn
    exact inFlight_seq_le_one (List.range' 2 (total_pages - 1)) n hn
  · rfl

/-- Witness for C9's theorem at totalPages = 3. -/
theorem fetch_requests_sequential_witness :
    1 ∈ inFlightCounts 0 (fetchEventTrace 3) ∧ 1 ≤ 1 :=
  ⟨by decide, fetch_requests_sequential.1 3 1 (by decide)⟩

/-- C4: `totalPages` as computed on line 146 by the integer formula
`(total_count + per_page - 1) // per_page` equals
`ceil(total_count / per_page)` for all positive `total_count` and
`per_page`, and in particular 100/25 gives 4 and 101/25 gives 5. -/
theorem total_pages_is_ceil (tc pp : Int) (htc : 0 < tc) (hpp : 0 < pp) :
    total_pages_formula tc pp = Int.ceil ((tc : ℚ) / (pp : ℚ)) ∧
    total_pages_formula 100 25 = 4 ∧ total_pages_formula 101 25 = 5 := by
  refine ⟨?_, by decide, by decide⟩
  rw [total_pages_formula, Int.fdiv_eq_ediv _ (le_of_lt hpp)]
  have hdecomp := Int.ediv_add_emod (tc + pp - 1) pp
  have hr0 : 0 ≤ (tc + pp - 1) % pp := Int.emod_nonneg _ (ne_of_gt hpp)
  have hrlt : (tc + pp - 1) % pp < pp := Int.emod_lt_of_pos _ hpp
  have hppQ : (0 : ℚ) < (pp : ℚ) := by exact_mod_cast hpp
  symm
  rw [Int.ceil_eq_iff]
  constructor
  · rw [lt_div_iff₀ hppQ]
    have hZ : ((tc + pp - 1) / pp - 1) * pp < tc := by nlinarith
    have hcast : ((((tc + pp - 1) / pp - 1) * pp : Int) : ℚ) < ((tc : Int) : ℚ) := by
      exact_mod_cast hZ
    push_cast at hcast
    linarith
  · rw [div_le_iff₀ hppQ]
    have hZ : tc ≤ (tc + pp - 1) / pp * pp := by nlinarith
    exact_mod_cast hZ

/-- Witness for C4's theorem at total_count = 101, per_page = 25. -/
theorem total_pages_is_ceil_witness :
    total_pages_formula 101 25 = Int.ceil ((101 : ℚ) / (25 : ℚ)) ∧
    total_pages_formula 100 25 = 4 ∧ total_pages_formula 101 25 = 5 :=
  total_pages_is_ceil 101 25 (by decide) (by decide)

/-- C10: a page whose fetch succeeded but whose decoded payload is falsy or
is an object without the `hackathons` key is handled exactly like an
exhausted failure: the per-page step yields the failed outcome (the same
outcome an absent fetch yields), so the loop appends the page number to
`failed_pages` and appends nothing to the record accumulator. -/
theorem emptyish_payload_is_failed (v : PyVal)
    (h : truthy v = false ∨
      ∃ kvs, v = PyVal.dict kvs ∧ kvs.lookup "hackathons" = Option.none) :
    pageStep (some v) = Except.ok Option.none ∧
    pageStep (some v) = pageStep Option.none ∧
    ∀ (outcome : Nat → Option PyVal) (p : Nat) (ps : List Nat)
      (acc : List PyVal) (failed : List Nat),
      outcome p = some v →
      fetchLoop outcome (p :: ps) acc failed =
        fetchLoop outcome ps acc (failed ++ [p]) := by
  have hstep : pageStep (some v) = Except.ok Option.none := by
    rcases h with hf | ⟨kvs, rfl, hk⟩
    · simp [pageStep, hf]
    · cases ht : truthy (PyVal.dict kvs) with
      | false => simp [pageStep, ht]
      | true => simp [pageStep, ht, pyContains, hk]
  refine ⟨hstep, by rw [hstep]; rfl, ?_⟩
  intro outcome p ps acc failed hop
  simp [fetchLoop, hop, hstep]

/-- Witness for C10's theorem: a truthy object payload lacking the
`hackathons` key lands in the failed-pages list and contributes nothing. -/
theorem emptyish_payload_is_failed_witness :
    pageStep (some (PyVal.dict [("x", PyVal.int 1)])) = Except.ok Option.none ∧
    fetchLoop (fun _ => some (PyVal.dict [("x", PyVal.int 1)])) [2] [] [] =
      fetchLoop (fun _ => some (PyVal.dict [("x", PyVal.int 1)])) [] [] ([] ++ [2]) :=
  ⟨(emptyish_payload_is_failed _ (Or.inr ⟨[("x", PyVal.int 1)], rfl, rfl⟩)).1,
   (emptyish_payload_is_failed _
     (Or.inr ⟨[("x", PyVal.int 1)], rfl, rfl⟩)).2.2 _ 2 [] [] [] rfl⟩

/-! ## Witness fixtures: a 3-page run where page 2 succeeds with one empty
record and page 3 is absent. -/

def wOutcome : Nat → Option (List PyVal) :=
  fun p => if p = 2 then some [PyVal.dict []] else Option.none

def wF : PyVal → PyVal := fun _ => flatEmpty

theorem wOutcome_flatten : ∀ p ∈ List.range' 2 (3 - 1), ∀ rs,
    wOutcome p = some rs → ∀ r ∈ rs, flatten_hackathon r = Except.ok (wF r) := by
  have h23 : List.range' 2 (3 - 1) = [2, 3] := rfl
  rw [h23]
  intro p hp rs hrs r hr
  rcases List.mem_cons.mp hp with h2 | h2
  · subst h2
    rw [show wOutcome 2 = some [PyVal.dict []] from rfl] at hrs
    cases hrs
    rw [List.mem_singleton] at hr
    subst hr
    rfl
  · rcases List.mem_cons.mp h2 with h3 | h3
    · subst h3
      rw [show wOutcome 3 = Option.none from rfl] at hrs
      cases hrs
    · cases h3

theorem wFirst_flatten : ∀ r ∈ [PyVal.dict []],
    flatten_hackathon r = Except.ok (wF r) := by
  intro r hr
  rw [List.mem_singleton] at hr
  subst hr
  rfl

/-- C1: for every totalPages and every assignment of per-page outcomes
(success with a record list, or absent), `fetch_all_hackathons` returns the
flattened page-1 records followed by the flattened records of each
successful page in strictly ascending page-number order 2, 3, ...,
totalPages (the pages are consumed in the fixed enumeration order
`List.range' 2 (totalPages - 1)`, so the result does not depend on any
completion order). -/
theorem fetch_all_ordered_by_page (total_pages : Nat) (first : List PyVal)
    (o : Nat → Option (List PyVal)) (F : PyVal → PyVal)
    (hfirst : ∀ r ∈ first, flatten_hackathon r = Except.ok (F r))
    (hpages : ∀ p ∈ List.range' 2 (total_pages - 1), ∀ rs, o p = some rs →
      ∀ r ∈ rs, flatten_hackathon r = Except.ok (F r)) :
    fetch_all_hackathons total_pages first (encodePages o) =
      Except.ok (first.map F ++
          (List.range' 2 (total_pages - 1)).flatMap
            (fun p => ((o p).getD []).map F),
        (List.range' 2 (total_pages - 1)).filter (fun p => (o p).isNone)) :=
  fetch_all_spec total_pages first o F hfirst hpages

/-- Witness for C1's theorem on the 3-page fixture. -/
theorem fetch_all_ordered_by_page_witness :
    fetch_all_hackathons 3 [PyVal.dict []] (encodePages wOutcome) =
      Except.ok ([PyVal.dict []].map wF ++
          (List.range' 2 (3 - 1)).flatMap
            (fun p => ((wOutcome p).getD []).map wF),
        (List.range' 2 (3 - 1)).filter (fun p => (wOutcome p).isNone)) :=
  fetch_all_ordered_by_page 3 [PyVal.dict []] wOutcome wF
    wFirst_flatten wOutcome_flatten

/-- C2: a page whose every attempt fails (in particular a page that always
returns HTTP 404) consumes exactly `max_retries` attempts — the attempt
budget is shared by all error classes and never reset — and
`fetch_page_with_retry` returns the absent outcome instead of raising; in
`fetch_all_hackathons` such a page lands exactly once in the failed-pages
list and contributes zero records to the output. -/
theorem retry_exhaustion_shared_budget (mr : Nat) (oracle : Nat → AttemptResult)
    (hfail : ∀ n d, oracle n ≠ AttemptResult.success d)
    (total_pages p : Nat) (hp2 : 2 ≤ p) (hpt : p ≤ total_pages)
    (first : List PyVal) (o : Nat → Option (List PyVal)) (F : PyVal → PyVal)
    (hop : o p = Option.none)
    (hfirst : ∀ r ∈ first, flatten_hackathon r = Except.ok (F r))
    (hpages : ∀ q ∈ List.range' 2 (total_pages - 1), ∀ rs, o q = some rs →
      ∀ r ∈ rs, flatten_hackathon r = Except.ok (F r)) :
    fetch_page_with_retry oracle mr = (Option.none, mr) ∧
    fetch_all_hackathons total_pages first (encodePages o) =
      Except.ok (first.map F ++
          (List.range' 2 (total_pages - 1)).flatMap
            (fun q => ((o q).getD []).map F),
        (List.range' 2 (total_pages - 1)).filter (fun q => (o q).isNone)) ∧
    ((List.range' 2 (total_pages - 1)).filter (fun q => (o q).isNone)).count p = 1 ∧
    ((o p).getD []).map F = [] := by
  refine ⟨fetchPageLoop_fail oracle mr hfail mr 0 (by omega),
    fetch_all_spec total_pages first o F hfirst hpages, ?_, by simp [hop]⟩
  have hmem : p ∈ List.range' 2 (total_pages - 1) :=
    List.mem_range'_1.mpr ⟨hp2, by omega⟩
  have hmemf : p ∈ (List.range' 2 (total_pages - 1)).filter
      (fun q => (o q).isNone) :=
    List.mem_filter.mpr ⟨hmem, by simp [hop]⟩
  have hnodup : ((List.range' 2 (total_pages - 1)).filter
      (fun q => (o q).isNone)).Nodup :=
    (List.nodup_range' 2 (total_pages - 1) 1 (by norm_num)).filter _
  exact List.count_eq_one_of_mem hnodup hmemf

/-- Witness for C2's theorem: all-404 oracle with the default
`max_retries = 3`, page 3 of a 3-page run permanently failing. -/
theorem retry_exhaustion_shared_budget_witness :
    fetch_page_with_retry (fun _ => AttemptResult.http404) 3 = (Option.none, 3) ∧
    fetch_all_hackathons 3 [PyVal.dict []] (encodePages wOutcome) =
      Except.ok ([PyVal.dict []].map wF ++
          (List.range' 2 (3 - 1)).flatMap
            (fun q => ((wOutcome q).getD []).map wF),
        (List.range' 2 (3 - 1)).filter (fun q => (wOutcome q).isNone)) ∧
    ((List.range' 2 (3 - 1)).filter (fun q => (wOutcome q).isNone)).count 3 = 1 ∧
    ((wOutcome 3).getD []).map wF = [] :=
  retry_exhaustion_shared_budget 3 (fun _ => AttemptResult.http404)
    (fun _ _ h => AttemptResult.noConfusion h) 3 3 (by norm_num) (by norm_num)
    [PyVal.dict []] wOutcome wF rfl wFirst_flatten wOutcome_flatten

/-- C3: when some pages fail permanently and all others succeed,
`fetch_all_hackathons` still returns successfully (no exception
propagates); the record count is the page-1 count plus the successful
pages' counts, and the failed-pages list is exactly the failing page
numbers in ascending order. -/
theorem fetch_all_partial_failure_tolerant (total_pages : Nat)
    (first : List PyVal) (o : Nat → Option (List PyVal)) (F : PyVal → PyVal)
    (hfirst : ∀ r ∈ first, flatten_hackathon r = Except.ok (F r))
    (hpages : ∀ p ∈ List.range' 2 (total_pages - 1), ∀ rs, o p = some rs →
      ∀ r ∈ rs, flatten_hackathon r = Except.ok (F r)) :
    fetch_all_hackathons total_pages first (encodePages o) =
      Except.ok (first.map F ++
          (List.range' 2 (total_pages - 1)).flatMap
            (fun p => ((o p).getD []).map F),
        (List.range' 2 (total_pages - 1)).filter (fun p => (o p).isNone)) ∧
    (first.map F ++ (List.range' 2 (total_pages - 1)).flatMap
        (fun p => ((o p).getD []).map F)).length =
      first.length + ((List.range' 2 (total_pages - 1)).map
        (fun p => ((o p).getD []).length)).sum ∧
    List.Sorted (· < ·) ((List.range' 2 (total_pages - 1)).filter
      (fun p => (o p).isNone)) := by
  refine ⟨fetch_all_spec total_pages first o F hfirst hpages, ?_, ?_⟩
  · simp only [List.length_append, List.length_flatMap, List.length_map]
    congr 2
    apply List.map_congr_left
    intro a ha
    simp [Function.comp]
  · exact (List.pairwise_lt_range' 2 (total_pages - 1) 1 (by norm_num)).filter _

/-- Witness for C3's theorem on the 3-page fixture (page 3 fails). -/
theorem fetch_all_partial_failure_tolerant_witness :
    fetch_all_hackathons 3 [PyVal.dict []] (encodePages wOutcome) =
      Except.ok ([PyVal.dict []].map wF ++
          (List.range' 2 (3 - 1)).flatMap
            (fun p => ((wOutcome p).getD []).map wF),
        (List.range' 2 (3 - 1)).filter (fun p => (wOutcome p).isNone)) ∧
    ([PyVal.dict []].map wF ++ (List.range' 2 (3 - 1)).flatMap
        (fun p => ((wOutcome p).getD []).map wF)).length =
      [PyVal.dict []].length + ((List.range' 2 (3 - 1)).map
        (fun p => ((wOutcome p).getD []).length)).sum ∧
    List.Sorted (· < ·) ((List.range' 2 (3 - 1)).filter
      (fun p => (wOutcome p).isNone)) :=
  fetch_all_partial_failure_tolerant 3 [PyVal.dict []] wOutcome wF
    wFirst_flatten wOutcome_flatten

/-- Projection of a field out of a flat record value. -/
def flatField (v : PyVal) (k : String) : Option PyVal :=
  match v with
  | PyVal.dict kvs => kvs.lookup k
  | _ => Option.none

/-- C5: for every raw hackathon record missing any subset of its fields
(with present fields carrying the API's types), `flatten_hackathon` never
raises and returns a mapping with all 19 output keys; absent themes join to
`""`, a missing location object projects safely, missing prize counts
default to 0, and the thumbnail URL is prefixed with the fixed scheme
string exactly when it is non-empty. -/
theorem flatten_total_with_defaults (kvs : List (String × PyVal))
    (hwt : WTRaw kvs) :
    ∃ f : List (String × PyVal),
      flatten_hackathon (PyVal.dict kvs) = Except.ok (PyVal.dict f) ∧
      f.map Prod.fst = flatKeys ∧
      (kvs.lookup "themes" = Option.none →
        f.lookup "themes" = some (PyVal.str "")) ∧
      (kvs.lookup "displayed_location" = Option.none →
        f.lookup "location" = some PyVal.none) ∧
      (kvs.lookup "prizes_counts" = Option.none →
        f.lookup "cash_prizes_count" = some (PyVal.int 0) ∧
        f.lookup "other_prizes_count" = some (PyVal.int 0)) ∧
      (kvs.lookup "thumbnail_url" = Option.none →
        f.lookup "thumbnail_url" = some (PyVal.str "")) ∧
      (kvs.lookup "thumbnail_url" = some (PyVal.str "") →
        f.lookup "thumbnail_url" = some (PyVal.str "")) ∧
      (∀ s, s ≠ "" → kvs.lookup "thumbnail_url" = some (PyVal.str s) →
        f.lookup "thumbnail_url" = some (PyVal.str ("https:" ++ s))) := by
  obtain ⟨th, locV, paV, cashV, otherV, thumbV, heq, hthd, hlocd, hpad, hpcd,
    ht1, ht2, ht3⟩ := flatten_spec kvs hwt
  refine ⟨_, heq, rfl, ?_, ?_, ?_, ?_, ?_, ?_⟩
  · intro hz; rw [hthd hz]; rfl
  · intro hz; rw [hlocd hz]; rfl
  · intro hz
    obtain ⟨hc, ho⟩ := hpcd hz
    exact ⟨by rw [hc]; rfl, by rw [ho]; rfl⟩
  · intro hz; rw [ht1 hz]; rfl
  · intro hz; rw [ht2 hz]; rfl
  · intro s hs hz; rw [ht3 s hs hz]; rfl

/-- Witness for C5's theorem at the empty raw record. -/
theorem flatten_total_with_defaults_witness :
    ∃ f : List (String × PyVal),
      flatten_hackathon (PyVal.dict []) = Except.ok (PyVal.dict f) ∧
      f.map Prod.fst = flatKeys ∧
      (List.lookup "themes" ([] : List (String × PyVal)) = Option.none →
        f.lookup "themes" = some (PyVal.str "")) ∧
      (List.lookup "displayed_location" ([] : List (String × PyVal)) = Option.none →
        f.lookup "location" = some PyVal.none) ∧
      (List.lookup "prizes_counts" ([] : List (String × PyVal)) = Option.none →
        f.lookup "cash_prizes_count" = some (PyVal.int 0) ∧
        f.lookup "other_prizes_count" = some (PyVal.int 0)) ∧
      (List.lookup "thumbnail_url" ([] : List (String × PyVal)) = Option.none →
        f.lookup "thumbnail_url" = some (PyVal.str "")) ∧
      (List.lookup "thumbnail_url" ([] : List (String × PyVal)) = some (PyVal.str "") →
        f.lookup "thumbnail_url" = some (PyVal.str "")) ∧
      (∀ s, s ≠ "" →
        List.lookup "thumbnail_url" ([] : List (String × PyVal)) = some (PyVal.str s) →
        f.lookup "thumbnail_url" = some (PyVal.str ("https:" ++ s))) :=
  flatten_total_with_defaults []
    (by refine ⟨?_, ?_, ?_, ?_, ?_⟩ <;> intro v hv <;> simp at hv)

/-- C7 counterexample: the flat record of the empty raw record stores the
Python `None` marker (not an empty or zero value) for an absent `id`. -/
theorem flat_record_has_none_markers :
    flatten_hackathon (PyVal.dict []) = Except.ok flatEmpty ∧
    flatField flatEmpty "id" = some PyVal.none ∧
    PyVal.none ≠ PyVal.str "" ∧ PyVal.none ≠ PyVal.int 0 := by
  refine ⟨rfl, rfl, ?_, ?_⟩ <;> simp

/-- C7 amended: every flat record has the identical fixed 19-key schema;
themes/prize_amount/thumbnail_url default to the empty string and the two
prize counts to 0, but the remaining absent source fields are stored as the
`None` marker (every key is still always present, so the schema is never
ragged). -/
theorem flat_record_fixed_schema (kvs : List (String × PyVal))
    (hwt : WTRaw kvs) :
    ∃ f : List (String × PyVal),
      flatten_hackathon (PyVal.dict kvs) = Except.ok (PyVal.dict f) ∧
      f.map Prod.fst = flatKeys ∧
      (kvs.lookup "id" = Option.none → f.lookup "id" = some PyVal.none) ∧
      (kvs.lookup "title" = Option.none → f.lookup "title" = some PyVal.none) ∧
      (kvs.lookup "registrations_count" = Option.none →
        f.lookup "registrations_count" = some PyVal.none) ∧
      (kvs.lookup "managed_by_devpost_badge" = Option.none →
        f.lookup "managed_by_devpost" = some PyVal.none) ∧
      (kvs.lookup "themes" = Option.none →
        f.lookup "themes" = some (PyVal.str "")) ∧
      (kvs.lookup "prize_amount" = Option.none →
        f.lookup "prize_amount" = some (PyVal.str "")) ∧
      (kvs.lookup "prizes_counts" = Option.none →
        f.lookup "cash_prizes_count" = some (PyVal.int 0) ∧
        f.lookup "other_prizes_count" = some (PyVal.int 0)) ∧
      (kvs.lookup "thumbnail_url" = Option.none →
        f.lookup "thumbnail_url" = some (PyVal.str "")) := by
  obtain ⟨th, locV, paV, cashV, otherV, thumbV, heq, hthd, hlocd, hpad, hpcd,
    ht1, ht2, ht3⟩ := flatten_spec kvs hwt
  refine ⟨_, heq, rfl, ?_, ?_, ?_, ?_, ?_, ?_, ?_, ?_⟩
  · intro hz; rw [hz]; rfl
  · intro hz; rw [hz]; rfl
  · intro hz; rw [hz]; rfl
  · intro hz; rw [hz]; rfl
  · intro hz; rw [hthd hz]; rfl
  · intro hz; rw [hpad hz]; rfl
  · intro hz
    obtain ⟨hc, ho⟩ := hpcd hz
    exact ⟨by rw [hc]; rfl, by rw [ho]; rfl⟩
  · intro hz; rw [ht1 hz]; rfl

/-- Witness for C7's amended theorem at the empty raw record. -/
theorem flat_record_fixed_schema_witness :
    ∃ f : List (String × PyVal),
      flatten_hackathon (PyVal.dict []) = Except.ok (PyVal.dict f) ∧
      f.map Prod.fst = flatKeys ∧
      (List.lookup "id" ([] : List (String × PyVal)) = Option.none →
        f.lookup "id" = some PyVal.none) ∧
      (List.lookup "title" ([] : List (String × PyVal)) = Option.none →
        f.lookup "title" = some PyVal.none) ∧
      (List.lookup "registrations_count" ([] : List (String × PyVal)) = Option.none →
        f.lookup "registrations_count" = some PyVal.none) ∧
      (List.lookup "managed_by_devpost_badge" ([] : List (String × PyVal)) = Option.none →
        f.lookup "managed_by_devpost" = some PyVal.none) ∧
      (List.lookup "themes" ([] : List (String × PyVal)) = Option.none →
        f.lookup "themes" = some (PyVal.str "")) ∧
      (List.lookup "prize_amount" ([] : List (String × PyVal)) = Option.none →
        f.lookup "prize_amount" = some (PyVal.str "")) ∧
      (List.lookup "prizes_counts" ([] : List (String × PyVal)) = Option.none →
        f.lookup "cash_prizes_count" = some (PyVal.int 0) ∧
        f.lookup "other_prizes_count" = some (PyVal.int 0)) ∧
      (List.lookup "thumbnail_url" ([] : List (String × PyVal)) = Option.none →
        f.lookup "thumbnail_url" = some (PyVal.str "")) :=
  flat_record_fixed_schema []
    (by refine ⟨?_, ?_, ?_, ?_, ?_⟩ <;> intro v hv <;> simp at hv)

/-- C6 counterexample: flattening is not idempotent.  A raw record with the
protocol-relative thumbnail `//i` flattens to a record whose thumbnail is
`https://i`; flattening that output again prefixes the scheme a second time
(`https:https://i`), so `flatten (flatten r) ≠ flatten r`. -/
theorem flatten_not_idempotent :
    flatten_hackathon (PyVal.dict [("thumbnail_url", PyVal.str "//i")]) =
      Except.ok (flatBase (PyVal.str "https://i")) ∧
    flatten_hackathon (flatBase (PyVal.str "https://i")) =
      Except.ok (flatBase (PyVal.str "https:https://i")) ∧
    (flatten_hackathon (PyVal.dict [("thumbnail_url", PyVal.str "//i")]) >>=
        flatten_hackathon) ≠
      flatten_hackathon (PyVal.dict [("thumbnail_url", PyVal.str "//i")]) := by
  refine ⟨rfl, rfl, ?_⟩
  intro h
  rw [show (flatten_hackathon (PyVal.dict [("thumbnail_url", PyVal.str "//i")]) >>=
        flatten_hackathon) =
      Except.ok (flatBase (PyVal.str "https:https://i")) from rfl,
    show flatten_hackathon (PyVal.dict [("thumbnail_url", PyVal.str "//i")]) =
      Except.ok (flatBase (PyVal.str "https://i")) from rfl] at h
  simp [flatBase] at h

/-- The flat record produced for a raw record that carries only the twelve
pass-through fields: every computed field sits at its default. -/
def flatOfDefaults (a1 a2 a3 a4 a5 a6 a7 a8 a9 a10 a11 a12 : PyVal) : PyVal :=
  PyVal.dict
    [("id", a1), ("title", a2), ("url", a3), ("organization_name", a4),
     ("location", PyVal.none), ("open_state", a5),
     ("submission_period_dates", a6), ("time_left_to_submission", a7),
     ("prize_amount", PyVal.str ""), ("cash_prizes_count", PyVal.int 0),
     ("other_prizes_count", PyVal.int 0), ("registrations_count", a8),
     ("themes", PyVal.str ""), ("featured", a9), ("winners_announced", a10),
     ("invite_only", a11), ("managed_by_devpost", PyVal.none),
     ("thumbnail_url", PyVal.str ""), ("submission_gallery_url", a12)]

/-- C6 amended: flattening is not idempotent in general (re-flattening
prefixes the scheme string onto a non-empty thumbnail URL a second time);
in particular, for any raw record carrying only the twelve pass-through
fields (no themes, thumbnail, location object, prize data or badge),
flattening succeeds and re-flattening the flat output returns it
unchanged. -/
theorem flatten_idempotent_on_defaults
    (a1 a2 a3 a4 a5 a6 a7 a8 a9 a10 a11 a12 : PyVal) :
    flatten_hackathon (PyVal.dict
      [("id", a1), ("title", a2), ("url", a3), ("organization_name", a4),
       ("open_state", a5), ("submission_period_dates", a6),
       ("time_left_to_submission", a7), ("registrations_count", a8),
       ("featured", a9), ("winners_announced", a10), ("invite_only", a11),
       ("submission_gallery_url", a12)]) =
      Except.ok (flatOfDefaults a1 a2 a3 a4 a5 a6 a7 a8 a9 a10 a11 a12) ∧
    flatten_hackathon (flatOfDefaults a1 a2 a3 a4 a5 a6 a7 a8 a9 a10 a11 a12) =
      Except.ok (flatOfDefaults a1 a2 a3 a4 a5 a6 a7 a8 a9 a10 a11 a12) :=
  ⟨rfl, rfl⟩

/-- C8 counterexample: a run whose discovery succeeds (truthy page-1
response with valid metadata) but collects zero records exits 0 yet never
attempts to write a file, against the claim that a successful-discovery run
always attempts to write what was collected. -/
theorem discovery_ok_but_nothing_written :
    truthy (PyVal.dict
      [("meta", PyVal.dict [("total_count", PyVal.int 0),
        ("per_page", PyVal.int 25)]),
       ("hackathons", PyVal.list [])]) = true ∧
    mainFetch (PyVal.dict
      [("meta", PyVal.dict [("total_count", PyVal.int 0),
        ("per_page", PyVal.int 25)]),
       ("hackathons", PyVal.list [])]) (fun _ => Option.none) =
      Except.ok ([], []) ∧
    main_model (some (PyVal.dict
      [("meta", PyVal.dict [("total_count", PyVal.int 0),
        ("per_page", PyVal.int 25)]),
       ("hackathons", PyVal.list [])])) (fun _ => Option.none) =
      (0, Option.none) :=
  ⟨rfl, rfl, rfl⟩

/-- C8 amended: the process exits 0 on normal completion even when pages
failed, and exits non-zero (writing no file) when discovery raises, returns
falsy data, or a later exception propagates; when discovery succeeds and at
least one record was collected the collected (possibly partial) dataset is
written, but a run that collects zero records writes no file while still
exiting 0. -/
theorem exit_codes_and_write_policy :
    (∀ o, main_model Option.none o = (1, Option.none)) ∧
    (∀ fp o, truthy fp = false → main_model (some fp) o = (1, Option.none)) ∧
    (∀ fp o e, mainFetch fp o = Except.error e →
      main_model (some fp) o = (1, Option.none)) ∧
    (∀ fp o recs failed, truthy fp = true →
      mainFetch fp o = Except.ok (recs, failed) → recs ≠ [] →
      main_model (some fp) o = (0, some recs)) ∧
    (∀ fp o failed, truthy fp = true →
      mainFetch fp o = Except.ok ([], failed) →
      main_model (some fp) o = (0, Option.none)) := by
  refine ⟨fun o => rfl, ?_, ?_, ?_, ?_⟩
  · intro fp o hf
    simp [main_model, hf]
  · intro fp o e he
    cases ht : truthy fp with
    | false => simp [main_model, ht]
    | true => simp [main_model, ht, he]
  · intro fp o recs failed ht hm hne
    simp [main_model, ht, hm, hne]
  · intro fp o failed ht hm
    simp [main_model, ht, hm]

/-- Witness for C8's amended theorem: a 2-page run whose page 2 fails still
exits 0 and writes the one record collected from page 1. -/
theorem exit_codes_and_write_policy_witness :
    main_model (some (PyVal.dict
      [("meta", PyVal.dict [("total_count", PyVal.int 2),
        ("per_page", PyVal.int 1)]),
       ("hackathons", PyVal.list [PyVal.dict []])])) (fun _ => Option.none) =
      (0, some [flatEmpty]) :=
  exit_codes_and_write_policy.2.2.2.1 _ (fun _ => Option.none) [flatEmpty] [2]
    rfl rfl (by simp)
